import Mathlib

/-!
# Verification of the video-downloader engine against its design spec

This development shallowly embeds the core logic of the `video-downloader`
repository (URL classification, stream-completeness heuristic, command
planning, progress parsing, access probing, CLI exit behaviour, and the GUI
queue manager / worker) and proves or refutes the properties stated in the
design specification.

Python strings are modelled as `List Char`; Python substring tests (`'x' in s`)
as `containsSub`; machine floats that only ever hold exactly-representable
decimal literals are modelled as exact rationals `ℚ`; Python `int()` as
truncation toward zero; fallible Python code as `Except`-valued functions.
-/

set_option autoImplicit false

namespace VideoDL

/-! ## String primitives (Python `str` operations on `List Char`) -/

/-- `listStartsWith needle hay` : does `hay` begin with `needle`? -/
def listStartsWith : List Char → List Char → Bool
  | [], _ => true
  | _ :: _, [] => false
  | a :: as, b :: bs => a == b && listStartsWith as bs

/-- Python substring test `needle in hay` (for the needles used in the
source, all of which are non-empty literals). -/
def containsSub (needle : List Char) : List Char → Bool
  | [] => needle.isEmpty
  | c :: rest => listStartsWith needle (c :: rest) || containsSub needle rest

/-- Python `str.lower()` on the ASCII strings handled by the source. -/
def lowerList (s : List Char) : List Char := s.map Char.toLower

/-- Python `str.upper()` on the ASCII strings handled by the source. -/
def upperList (s : List Char) : List Char := s.map Char.toUpper

/-- Python's default `str.strip()` whitespace set. -/
def pyIsSpace (c : Char) : Bool :=
  c == ' ' || c == '\t' || c == '\n' || c == '\r' || c == '\x0b' || c == '\x0c'

/-- Python `str.strip()`. -/
def stripChars (s : List Char) : List Char :=
  (s.dropWhile pyIsSpace).reverse.dropWhile pyIsSpace |>.reverse

/-- Python `str.endswith(suffix)`. -/
def endsWithList (suffix s : List Char) : Bool :=
  listStartsWith suffix.reverse s.reverse

/-! ## Enumerations from `src/core/detector.py` -/

/-- `VideoSource` — the source platform of the video. -/
inductive VideoSource where
  | vimeo | youtube | kinescope | getcourse | directStream | webpage | unknown
  deriving DecidableEq, Repr

/-- `VimeoType` — the detected access type of a video. -/
inductive VimeoType where
  | public | passwordProtected | loginRequired | embedOnly | invalid
  deriving DecidableEq, Repr

/-! ## Stream-completeness heuristic (`VimeoDetector._check_is_master_playlist`
and `VimeoDetector.is_video_only_stream`, `src/core/detector.py` lines 103-121) -/

/-- `VimeoDetector._check_is_master_playlist` : decide whether a manifest URL
is a master playlist (has audio) vs a video-only component.  Checks, in
source order: the `type=video` marker (→ not master), then the
`/primary/` + `playlist.m3u8` master pattern (→ master), then the
`st=video` / `media.m3u8` markers outside `/primary/` (→ not master),
defaulting to master. -/
def checkIsMasterPlaylist (url : List Char) : Bool :=
  if containsSub "type=video".data url then
    false
  else if containsSub "/primary/".data url && containsSub "playlist.m3u8".data url then
    true
  else if (containsSub "st=video".data url || containsSub "media.m3u8".data url)
      && !(containsSub "/primary/".data url) then
    false
  else
    true

/-- `VimeoDetector.is_video_only_stream` : true iff the URL appears to be a
video-only stream. -/
def isVideoOnlyStream (url : List Char) : Bool :=
  !(checkIsMasterPlaylist url)

/-- A URL that carries the explicit video-only marker *and* matches the
canonical master-playlist path+filename pattern at the same time. -/
def bothShapesUrl : List Char :=
  "https://example.vimeocdn.com/primary/playlist.m3u8?type=video".data

/-- C3, counterexample.  The claim asserts that every URL matching the
canonical master-playlist shape (`/primary/` together with `playlist.m3u8`)
yields `is_video_only_stream = false`, *including* URLs that also contain the
explicit video-only marker `type=video`.  On such a both-shapes URL the code
checks `type=video` first and returns `is_video_only_stream = true`. -/
theorem is_video_only_both_shapes_counterexample :
    containsSub "/primary/".data bothShapesUrl = true ∧
    containsSub "playlist.m3u8".data bothShapesUrl = true ∧
    containsSub "type=video".data bothShapesUrl = true ∧
    isVideoOnlyStream bothShapesUrl = true := by
  refine ⟨by decide, by decide, by decide, by decide⟩

/-- C3, amended.  The `type=video` marker takes precedence: every URL
containing `type=video` is classified video-only, and every URL matching the
master-playlist shape *without* the `type=video` marker is classified not
video-only. -/
theorem is_video_only_stream_markers (url : List Char) :
    (containsSub "type=video".data url = true → isVideoOnlyStream url = true) ∧
    (containsSub "/primary/".data url = true →
     containsSub "playlist.m3u8".data url = true →
     containsSub "type=video".data url = false →
     isVideoOnlyStream url = false) := by
  constructor
  · intro h
    simp [isVideoOnlyStream, checkIsMasterPlaylist, h]
  · intro h1 h2 h3
    simp [isVideoOnlyStream, checkIsMasterPlaylist, h1, h2, h3]

/-- C3 witness: the amended theorem evaluated at concrete master and
video-only URLs. -/
theorem is_video_only_stream_markers_witness :
    isVideoOnlyStream "https://kinescope.io/abc/media.m3u8?type=video".data = true ∧
    isVideoOnlyStream "https://x.vimeocdn.com/primary/playlist.m3u8".data = false :=
  ⟨(is_video_only_stream_markers _).1 (by decide),
   (is_video_only_stream_markers _).2 (by decide) (by decide) (by decide)⟩

/-! ## Command planner (`CommandBuilder`, `src/core/commands.py`)

The builder is embedded field-for-field; `build_ytdlp_command` appends its
argument blocks in source order, so it is modelled as the concatenation of
one function per `cmd.extend` block.  `yt-dlp` invocation prefix
(`runtime.ytdlp_cmd`, environment-dependent) and the direct-stream timestamp
(`datetime.now()`) are passed in as parameters. -/

/-- Python truthiness of an `Optional[str]`: `None` and `""` are falsy. -/
def optStrTruthy : Option String → Bool
  | none => false
  | some s => !(s == "")

/-- `VideoSource.value` — the string payload of each enum member. -/
def VideoSource.value : VideoSource → String
  | .vimeo => "vimeo"
  | .youtube => "youtube"
  | .kinescope => "kinescope"
  | .getcourse => "getcourse"
  | .directStream => "direct_stream"
  | .webpage => "webpage"
  | .unknown => "unknown"

/-- `CommandBuilder.__init__` fields. -/
structure CommandBuilder where
  videoId : String
  videoHash : Option String
  videoType : VimeoType
  password : Option String
  cookieString : Option String
  originalUrl : Option String
  source : VideoSource
  deriving DecidableEq, Repr

/-- `CommandBuilder.is_direct_stream`. -/
def CommandBuilder.isDirectStream (b : CommandBuilder) : Bool :=
  b.source == .directStream || b.source == .kinescope || b.source == .getcourse

/-- `CommandBuilder.get_url`. -/
def CommandBuilder.getUrl (b : CommandBuilder) : String :=
  if b.isDirectStream && optStrTruthy b.originalUrl then
    b.originalUrl.getD ""
  else if b.source == .youtube then
    "https://www.youtube.com/watch?v=" ++ b.videoId
  else if optStrTruthy b.videoHash then
    "https://vimeo.com/" ++ b.videoId ++ "/" ++ b.videoHash.getD ""
  else
    "https://vimeo.com/" ++ b.videoId

/-- Fixed leading arguments (`cmd = [*ytdlp_cmd(), "-N", concurrent, ...]`). -/
def ytdlpBaseArgs (ytdlp : List String) (fast : Bool) : List String :=
  ytdlp ++ ["-N", if fast then "32" else "16", "--no-warnings", "--progress", "--newline"]

/-- Cookie block: cookies-from-browser if available, else explicitly disabled. -/
def cookieArgs (b : CommandBuilder) : List String :=
  if optStrTruthy b.cookieString then
    ["--cookies-from-browser", b.cookieString.getD ""]
  else
    ["--no-cookies-from-browser"]

/-- Password block: only when a password was supplied and the video is
password-protected. -/
def passwordArgs (b : CommandBuilder) : List String :=
  if optStrTruthy b.password && b.videoType == .passwordProtected then
    ["--video-password", b.password.getD ""]
  else
    []

/-- Referer block (`# Add referer (skip for direct streams and YouTube)`). -/
def refererArgs (b : CommandBuilder) (referer : String) : List String :=
  if !b.isDirectStream && !(b.source == .youtube) then
    ["--referer", referer]
  else
    []

/-- Quality/format selection block. -/
def formatArgs (b : CommandBuilder) : List String :=
  if b.isDirectStream then
    ["--merge-output-format", "mp4"]
  else
    ["-f", "bv*+ba/b", "-S", "codec:avc,res,ext", "--merge-output-format", "mp4",
     "--postprocessor-args", "ffmpeg:-movflags +faststart"]

/-- Downloader-selection block. -/
def downloaderArgs (useAria2 : Bool) : List String :=
  if useAria2 then
    ["--downloader", "aria2c", "--downloader-args", "aria2c:-x 16 -s 16 -k 1M"]
  else
    ["--downloader", "native"]

/-- Temp-path block. -/
def pathsArgs (outputPath : String) : List String :=
  ["--paths", "temp:" ++ outputPath ++ "/.downloading"]

/-- Output path and filename block. -/
def outputArgs (b : CommandBuilder) (outputPath timestamp : String)
    (filename : Option String) : List String :=
  if optStrTruthy filename then
    ["-o", outputPath ++ "/" ++ filename.getD "" ++ ".%(ext)s"]
  else if b.isDirectStream then
    let pfx := if !(b.source == .directStream) then b.source.value else "stream"
    ["-o", outputPath ++ "/" ++ pfx ++ "_" ++ timestamp ++ ".%(ext)s"]
  else
    ["-o", outputPath ++ "/%(title)s [%(id)s].%(ext)s"]

/-- `CommandBuilder.build_ytdlp_command`: the blocks above in source order,
followed by the URL. -/
def buildYtdlpCommand (b : CommandBuilder) (ytdlp : List String) (timestamp : String)
    (outputPath : String) (useAria2 fast : Bool) (filename : Option String) : List String :=
  ytdlpBaseArgs ytdlp fast ++ cookieArgs b ++ passwordArgs b ++ refererArgs b b.getUrl
    ++ formatArgs b ++ downloaderArgs useAria2 ++ pathsArgs outputPath
    ++ outputArgs b outputPath timestamp filename ++ [b.getUrl]

/-- The source-mode `ytdlp_cmd()` value (`[sys.executable, "-m", "yt_dlp"]`). -/
def ytdlpSourceCmd (exe : String) : List String := [exe, "-m", "yt_dlp"]

/-- A GetCourse-classified builder as produced by a successful analysis of a
GetCourse playlist URL. -/
def gcBuilder : CommandBuilder :=
  { videoId := "a1b2c3d4"
    videoHash := none
    videoType := .public
    password := none
    cookieString := none
    originalUrl := some "https://vh-api-1-01.gceuproxy.com/api/playlist/master/a1b2c3d4e5/f6a7b8c9d0"
    source := .getcourse }

/-- C2, counterexample.  The claim asserts the referer flag is included for
generic-hosting (GetCourse) sources; the code treats GetCourse as a direct
stream and omits it. -/
theorem referer_getcourse_counterexample :
    "--referer" ∉
      buildYtdlpCommand gcBuilder (ytdlpSourceCmd "/usr/bin/python3")
        "20250101_120000" "." false false none := by
  decide

/-- Any string containing a `/` is not the literal `--referer`. -/
theorem ne_referer_of_slash (s : String) (h : '/' ∈ s.data) : s ≠ "--referer" := by
  intro e
  rw [e] at h
  exact absurd h (by decide)

/-- The output-template argument strings always contain a slash. -/
theorem outputArgs_no_referer (b : CommandBuilder) (outputPath timestamp : String)
    (filename : Option String) :
    "--referer" ∉ outputArgs b outputPath timestamp filename := by
  unfold outputArgs
  split
  · intro h
    simp only [List.mem_cons, List.not_mem_nil, or_false] at h
    rcases h with h | h
    · exact absurd h (by decide)
    · exact ne_referer_of_slash _ (by
        simp [String.data_append, List.mem_append]) h.symm
  · split
    · intro h
      simp only [List.mem_cons, List.not_mem_nil, or_false] at h
      rcases h with h | h
      · exact absurd h (by decide)
      · exact ne_referer_of_slash _ (by
          simp [String.data_append, List.mem_append]) h.symm
    · intro h
      simp only [List.mem_cons, List.not_mem_nil, or_false] at h
      rcases h with h | h
      · exact absurd h (by decide)
      · exact ne_referer_of_slash _ (by
          simp [String.data_append, List.mem_append]) h.symm

/-- The temp-path argument strings never contain the referer flag. -/
theorem pathsArgs_no_referer (outputPath : String) :
    "--referer" ∉ pathsArgs outputPath := by
  unfold pathsArgs
  intro h
  simp only [List.mem_cons, List.not_mem_nil, or_false] at h
  rcases h with h | h
  · exact absurd h (by decide)
  · exact ne_referer_of_slash _ (by simp [String.data_append, List.mem_append]) h.symm

/-- C2, amended.  The built command contains the referer flag exactly when
the source is neither a direct manifest stream, nor Kinescope, nor GetCourse,
nor YouTube — i.e. it is included for canonical-platform (Vimeo) and
webpage/unknown sources and omitted for GetCourse (contrary to the claim),
Kinescope, direct streams and YouTube.  The side conditions rule out the
flag string itself being smuggled in through a free-form input. -/
theorem referer_flag_characterization (b : CommandBuilder) (ytdlp : List String)
    (timestamp outputPath : String) (useAria2 fast : Bool) (filename : Option String)
    (h1 : "--referer" ∉ ytdlp)
    (h2 : ∀ s, b.cookieString = some s → s ≠ "--referer")
    (h3 : ∀ s, b.password = some s → s ≠ "--referer")
    (h4 : b.getUrl ≠ "--referer") :
    "--referer" ∈ buildYtdlpCommand b ytdlp timestamp outputPath useAria2 fast filename
      ↔ (b.isDirectStream = false ∧ b.source ≠ .youtube) := by
  have hbase : "--referer" ∉ ytdlpBaseArgs ytdlp fast := by
    unfold ytdlpBaseArgs
    intro h
    rcases List.mem_append.mp h with h | h
    · exact h1 h
    · cases fast <;> revert h <;> decide
  have hcook : "--referer" ∉ cookieArgs b := by
    unfold cookieArgs
    split
    · next hc =>
      intro h
      simp only [List.mem_cons, List.not_mem_nil, or_false] at h
      rcases h with h | h
      · exact absurd h (by decide)
      · rcases he : b.cookieString with _ | s
        · rw [he] at hc; exact absurd hc (by decide)
        · rw [he] at h
          simp only [Option.getD_some] at h
          exact (h2 s he) h.symm
    · intro h
      simp only [List.mem_cons, List.not_mem_nil, or_false] at h
      exact absurd h (by decide)
  have hpass : "--referer" ∉ passwordArgs b := by
    unfold passwordArgs
    split
    · next hc =>
      intro h
      simp only [List.mem_cons, List.not_mem_nil, or_false] at h
      rcases h with h | h
      · exact absurd h (by decide)
      · rcases he : b.password with _ | s
        · rw [he] at hc; simp [optStrTruthy] at hc
        · rw [he] at h
          simp only [Option.getD_some] at h
          exact (h3 s he) h.symm
    · simp
  have hfmt : "--referer" ∉ formatArgs b := by
    unfold formatArgs
    split <;> decide
  have hdl : "--referer" ∉ downloaderArgs useAria2 := by
    unfold downloaderArgs
    split <;> decide
  have hout := outputArgs_no_referer b outputPath timestamp filename
  have hpaths := pathsArgs_no_referer outputPath
  constructor
  · intro h
    unfold buildYtdlpCommand at h
    simp only [List.mem_append] at h
    rcases h with ((((((((h | h) | h) | h) | h) | h) | h) | h) | h)
    · exact absurd h hbase
    · exact absurd h hcook
    · exact absurd h hpass
    · unfold refererArgs at h
      split at h
      · next hc =>
        simp only [Bool.and_eq_true, Bool.not_eq_true'] at hc
        refine ⟨hc.1, fun hy => ?_⟩
        rw [hy] at hc
        simp at hc
      · simp at h
    · exact absurd h hfmt
    · exact absurd h hdl
    · exact absurd h hpaths
    · exact absurd h hout
    · simp only [List.mem_cons, List.not_mem_nil, or_false] at h
      exact absurd h.symm h4
  · intro ⟨hds, hyt⟩
    unfold buildYtdlpCommand refererArgs
    simp only [List.mem_append]
    refine Or.inl (Or.inl (Or.inl (Or.inl (Or.inl (Or.inr ?_)))))
    have hcond : (!b.isDirectStream && !(b.source == .youtube)) = true := by
      simp [hds, hyt]
    rw [hcond]
    simp

/-- C2 witness: the characterization applied to a concrete Vimeo builder
(referer present) with all hypotheses discharged. -/
theorem referer_flag_characterization_witness :
    "--referer" ∈
      buildYtdlpCommand
        { videoId := "123456789", videoHash := some "abcdef123", videoType := .public,
          password := none, cookieString := none, originalUrl := none, source := .vimeo }
        (ytdlpSourceCmd "/usr/bin/python3") "20250101_120000" "." false false none := by
  have h := referer_flag_characterization
    { videoId := "123456789", videoHash := some "abcdef123", videoType := .public,
      password := none, cookieString := none, originalUrl := none, source := .vimeo }
    (ytdlpSourceCmd "/usr/bin/python3") "20250101_120000" "." false false none
    (by decide) (by intro s hs; simp at hs) (by intro s hs; simp at hs) (by decide)
  exact h.mpr (by constructor <;> decide)

/-! ## Access prober (`VimeoDetector.detect_type`, `src/core/detector.py`
lines 123-169)

The two `requests.get` calls are the only effects; they are passed in as
`HttpOutcome` oracles (a `requests.RequestException` is `failure`). -/

/-- Outcome of one `requests.get` call. -/
inductive HttpOutcome where
  | failure
  | success (text : List Char) (statusCode : Nat)
  deriving DecidableEq, Repr

/-- `VimeoDetector.detect_type`, taking the post-`parse_url` `video_id` (the
method re-runs `parse_url` itself when it is unset), whether cookies were
supplied, and the outcomes of the unauthenticated probe (`req1`) and of the
cookie retry (`req2`).  A network failure anywhere in the `try` block is
answered with the optimistic `PUBLIC`. -/
def detectType (videoId : Option (List Char)) (hasCookies : Bool)
    (req1 req2 : HttpOutcome) : VimeoType :=
  match videoId with
  | none => .invalid
  | some _ =>
    match req1 with
    | .failure => .public
    | .success text _ =>
      let lowered := lowerList text
      if containsSub "password".data lowered && containsSub "enter password".data lowered then
        .passwordProtected
      else if (containsSub "log in".data lowered || containsSub "sign in".data lowered)
          && containsSub "watch this video".data lowered then
        .loginRequired
      else if containsSub "Sorry".data text && containsSub "cannot be played".data text then
        .embedOnly
      else if containsSub "player.vimeo.com".data text
          || containsSub "\"config_url\"".data text then
        .public
      else if hasCookies then
        match req2 with
        | .failure => .public
        | .success _ code => if code == 200 then .public else .loginRequired
      else
        .loginRequired

/-- C6: for every classified Vimeo URL (a parsed `video_id` is present) and
every cookie configuration, a network failure of the access probe yields
`PUBLIC` — the failure is never surfaced. -/
theorem detect_type_network_failure_public (vid : List Char) (hasCookies : Bool)
    (req2 : HttpOutcome) :
    detectType (some vid) hasCookies .failure req2 = .public := rfl

/-! ## URL classifier (`VimeoDetector.parse_url`, `src/core/detector.py`
lines 51-101)

Each `re.search` pattern is embedded as a matcher over `List Char`; the
leftmost-match search is `searchSuffixes`.  The character classes involved
(`\d`, `[a-f0-9]`, `[a-f0-9-]`, `[\w-]`) are disjoint from the literals that
follow them in every pattern, so greedy maximal-munch matching coincides with
the backtracking semantics; the one genuinely backtracking piece,
`watch\?.*v=`, is modelled exactly (rightmost viable `v=` on the line). -/

/-- Drop a literal from the front of the input, or fail. -/
def dropLit (lit l : List Char) : Option (List Char) :=
  if listStartsWith lit l then some (l.drop lit.length) else none

/-- Leftmost-match search: try the matcher at every start position. -/
def searchSuffixes {α : Type} (f : List Char → Option α) : List Char → Option α
  | [] => f []
  | c :: rest =>
    match f (c :: rest) with
    | some r => some r
    | none => searchSuffixes f rest

/-- The `[a-f0-9]` class. -/
def isHexLower (c : Char) : Bool := c.isDigit || ('a' ≤ c && c ≤ 'f')

/-- The `[a-f0-9-]` class. -/
def isHexDash (c : Char) : Bool := isHexLower c || c == '-'

/-- The `\w` class (ASCII) together with `-`, i.e. `[\w-]`. -/
def isWordDash (c : Char) : Bool := c.isAlphanum || c == '_' || c == '-'

/-- `([\w-]{11})` : exactly eleven word-or-dash characters. -/
def grab11 (l : List Char) : Option (List Char) :=
  if ((l.take 11).length == 11) && (l.take 11).all isWordDash then
    some (l.take 11)
  else
    none

/-- `VIMEO_URL_PATTERN = vimeo\.com/(?:video/)?(\d+)(?:/([a-f0-9]+))?`
matched at the current position; returns (id, optional hash). -/
def matchVimeoAt (l : List Char) : Option (List Char × Option (List Char)) :=
  match dropLit "vimeo.com/".data l with
  | none => none
  | some r =>
    let tryDigits (r : List Char) : Option (List Char × Option (List Char)) :=
      let ds := r.takeWhile Char.isDigit
      if ds.isEmpty then none
      else
        match r.drop ds.length with
        | '/' :: r2 =>
          let hs := r2.takeWhile isHexLower
          if hs.isEmpty then some (ds, none) else some (ds, some hs)
        | _ => some (ds, none)
    match dropLit "video/".data r with
    | some r2 =>
      match tryDigits r2 with
      | some res => some res
      | none => tryDigits r
    | none => tryDigits r

/-- `PLAYER_URL_PATTERN = player\.vimeo\.com/video/(\d+)`. -/
def matchPlayerAt (l : List Char) : Option (List Char) :=
  match dropLit "player.vimeo.com/video/".data l with
  | none => none
  | some r =>
    let ds := r.takeWhile Char.isDigit
    if ds.isEmpty then none else some ds

/-- `watch\?.*v=([\w-]{11})` tail: the greedy `.*` (which cannot cross a
newline) backtracks to the rightmost `v=` followed by eleven `[\w-]`
characters. -/
def lastVEqMatch : List Char → Option (List Char)
  | [] => none
  | c :: rest =>
    let here :=
      if listStartsWith "v=".data (c :: rest) then grab11 ((c :: rest).drop 2) else none
    if c == '\n' then
      here
    else
      match lastVEqMatch rest with
      | some r => some r
      | none => here

/-- `YOUTUBE_URL_PATTERN =
(?:youtube\.com/(?:watch\?.*v=|embed/|v/|shorts/)|youtu\.be/)([\w-]{11})`. -/
def matchYoutubeAt (l : List Char) : Option (List Char) :=
  match dropLit "youtube.com/".data l with
  | some r =>
    match
      (match dropLit "watch?".data r with
       | some r2 => lastVEqMatch r2
       | none => none) with
    | some v => some v
    | none =>
      match (dropLit "embed/".data r).bind grab11 with
      | some v => some v
      | none =>
        match (dropLit "v/".data r).bind grab11 with
        | some v => some v
        | none => (dropLit "shorts/".data r).bind grab11
  | none => (dropLit "youtu.be/".data l).bind grab11

/-- `GETCOURSE_URL_PATTERN =
gceuproxy\.com/api/playlist/master/([a-f0-9]+)/([a-f0-9]+)`. -/
def matchGetcourseAt (l : List Char) : Option (List Char × List Char) :=
  match dropLit "gceuproxy.com/api/playlist/master/".data l with
  | none => none
  | some r =>
    let h1 := r.takeWhile isHexLower
    if h1.isEmpty then none
    else
      match r.drop h1.length with
      | '/' :: r2 =>
        let h2 := r2.takeWhile isHexLower
        if h2.isEmpty then none else some (h1, h2)
      | _ => none

/-- `KINESCOPE_URL_PATTERN = kinescope\.io/([a-f0-9-]+)/media\.m3u8`. -/
def matchKinescopeAt (l : List Char) : Option (List Char) :=
  match dropLit "kinescope.io/".data l with
  | none => none
  | some r =>
    let g := r.takeWhile isHexDash
    if g.isEmpty then none
    else
      match dropLit "/media.m3u8".data (r.drop g.length) with
      | some _ => some g
      | none => none

/-- `.+\.m3u8` : one or more non-newline characters and then the literal. -/
def dotPlusM3u8 : Bool → List Char → Bool
  | _, [] => false
  | consumed, c :: rest =>
    (consumed && listStartsWith ".m3u8".data (c :: rest))
      || (c != '\n' && dotPlusM3u8 true rest)

/-- `CDN_URL_PATTERN = vimeocdn\.com/.+\.m3u8` matched at a position. -/
def matchCdnAt (l : List Char) : Option Unit :=
  match dropLit "vimeocdn.com/".data l with
  | none => none
  | some r => if dotPlusM3u8 false r then some () else none

/-- Python truthiness of an optional string captured as `List Char`. -/
def optListTruthy : Option (List Char) → Bool
  | none => false
  | some l => !l.isEmpty

/-- The fields of the detector that `parse_url` assigns. -/
structure ParseResult where
  videoId : Option (List Char)
  hash : Option (List Char)
  source : VideoSource
  videoType : Option VimeoType
  deriving DecidableEq, Repr

/-- `VimeoDetector.parse_url` : the pattern cascade in source order (standard
vimeo.com, player.vimeo.com, YouTube, GetCourse, Kinescope, Vimeo CDN
m3u8), returning the assigned detector fields. -/
def parseUrl (url : List Char) : ParseResult :=
  match searchSuffixes matchVimeoAt url with
  | some (vid, h) => ⟨some vid, h, .vimeo, none⟩
  | none =>
  match searchSuffixes matchPlayerAt url with
  | some vid => ⟨some vid, none, .vimeo, none⟩
  | none =>
  match searchSuffixes matchYoutubeAt url with
  | some vid => ⟨some vid, none, .youtube, some .public⟩
  | none =>
  match searchSuffixes matchGetcourseAt url with
  | some (h1, _) => ⟨some (h1.take 8), none, .getcourse, some .public⟩
  | none =>
  match searchSuffixes matchKinescopeAt url with
  | some vid => ⟨some vid, none, .kinescope, some .public⟩
  | none =>
  match searchSuffixes matchCdnAt url with
  | some _ => ⟨some "direct_m3u8".data, none, .directStream, some .public⟩
  | none => ⟨none, none, .unknown, none⟩

/-- `VimeoDetector.get_public_url`. -/
def getPublicUrl (videoId : List Char) (hsh : Option (List Char)) : List Char :=
  if optListTruthy hsh then
    "https://vimeo.com/".data ++ videoId ++ '/' :: hsh.getD []
  else
    "https://vimeo.com/".data ++ videoId

/-- The scenario URL of the round-trip claim. -/
def c7Url : List Char := "https://vimeo.com/123456789/abcdef123".data

/-- C7: classifying `https://vimeo.com/123456789/abcdef123` yields source
Vimeo, id `123456789`, access hash `abcdef123`, and the canonical public URL
reconstructed from those fields is the original URL. -/
theorem vimeo_url_roundtrip :
    parseUrl c7Url =
      ⟨some "123456789".data, some "abcdef123".data, .vimeo, none⟩ ∧
    getPublicUrl "123456789".data (some "abcdef123".data) = c7Url := by
  constructor
  · decide
  · decide

/-! ## CLI exit behaviour (`src/video_dl.py`)

`download_single` gates on `analyze()` and produces a success boolean; the
`main` command callback invokes it and falls off the end (returning `None`),
and `click`'s standalone mode turns a `None` callback result into process
exit status 0.  The effectful sub-results (analysis success, list-formats
success, external process success) are oracle parameters. -/

/-- `VimeoDownloader.download` result: a dry run prints the command and
returns `True`; otherwise the result is the external process's success. -/
def downloadResult (dryRun execOk : Bool) : Bool :=
  if dryRun then true else execOk

/-- `download_single(...)` from `src/video_dl.py` lines 16-35. -/
def downloadSingle (analyzeOk listFormatsFlag dryRun listOk execOk : Bool) : Bool :=
  if !analyzeOk then false
  else if listFormatsFlag then listOk
  else downloadResult dryRun execOk

/-- The `main` command callback in single-URL mode: it calls
`download_single`, discards the boolean, and returns `None` (no `return`
statement). -/
def mainSingleCallback (analyzeOk listFormatsFlag dryRun listOk execOk : Bool) : Option Int :=
  let _ := downloadSingle analyzeOk listFormatsFlag dryRun listOk execOk
  none

/-- `click` standalone-mode exit: a callback returning `None` exits 0. -/
def clickStandaloneExit (rv : Option Int) : Int :=
  rv.getD 0

/-- Process exit status of a normally-terminating single-URL CLI invocation. -/
def mainSingleExitCode (analyzeOk listFormatsFlag dryRun listOk execOk : Bool) : Int :=
  clickStandaloneExit (mainSingleCallback analyzeOk listFormatsFlag dryRun listOk execOk)

/-- C4, counterexample.  A single-URL invocation whose analysis fails: the
download fails (`download_single` returns `False`) yet the process exits 0,
because `main` discards the result — the claim demands a non-zero status. -/
theorem cli_exit_failure_counterexample :
    downloadSingle false false false true true = false ∧
    mainSingleExitCode false false false true true = 0 := by
  decide

/-- C4, amended.  Every normally-terminating single-URL invocation exits with
status zero — on success, dry-run and list-formats as claimed, but also on
download failure: the failure is computed by `download_single` and then
dropped by `main`. -/
theorem cli_exit_always_zero (analyzeOk listFormatsFlag dryRun listOk execOk : Bool) :
    mainSingleExitCode analyzeOk listFormatsFlag dryRun listOk execOk = 0 ∧
    downloadSingle false listFormatsFlag dryRun listOk execOk = false := by
  constructor
  · rfl
  · rfl

/-! ## Progress interpreter (`ProgressParser`, `src/core/downloader.py`
lines 23-151)

The `re` patterns are embedded as matchers in the same style as the URL
classifier.  Numeric values travel as exact rationals: every float the
parser constructs comes from a decimal literal in the matched text, and
`int()` is truncation toward zero. -/

/-- An exact fraction `num / den`.  The floats the progress parser handles
all come from decimal literals in the matched text, so they are modelled as
exact fractions with explicit integer arithmetic. -/
structure DecQ where
  num : ℤ
  den : ℕ
  deriving DecidableEq, Repr

/-- The rational value of a `DecQ`. -/
def DecQ.toRat (q : DecQ) : ℚ := (q.num : ℚ) / (q.den : ℚ)

/-- Multiplication of exact fractions. -/
def DecQ.mul (a b : DecQ) : DecQ := ⟨a.num * b.num, a.den * b.den⟩

/-- Division of an exact fraction by a natural number. -/
def DecQ.divNat (a : DecQ) (n : ℕ) : DecQ := ⟨a.num, a.den * n⟩

/-- Python `int()` (truncation toward zero) of an exact fraction. -/
def DecQ.truncInt (q : DecQ) : ℤ := q.num.tdiv (q.den : ℤ)

/-- Round half to even (the rounding used by Python float formatting). -/
def DecQ.roundHalfEven (q : DecQ) : ℤ :=
  let d : ℤ := (q.den : ℤ)
  let f := Int.fdiv q.num d
  let rNum := q.num - f * d
  if 2 * rNum < d then f
  else if d < 2 * rNum then f + 1
  else if f % 2 = 0 then f else f + 1

/-- Digits to a natural number. -/
def digitsToNat (l : List Char) : Nat :=
  l.foldl (fun a c => a * 10 + (c.toNat - '0'.toNat)) 0

/-- Python `float()` on the strings matched by `\d+\.?\d*` and `[\d.]+`
(at most one dot); multi-dot captures (on which `float()` raises) yield
`none`. -/
def pyFloat (l : List Char) : Option DecQ :=
  let intPart := l.takeWhile Char.isDigit
  match l.drop intPart.length with
  | [] => if intPart.isEmpty then none else some ⟨digitsToNat intPart, 1⟩
  | '.' :: rest =>
    if rest.all Char.isDigit then
      if intPart.isEmpty && rest.isEmpty then none
      else some ⟨digitsToNat intPart * 10 ^ rest.length + digitsToNat rest, 10 ^ rest.length⟩
    else none
  | _ => none

/-- `ProgressParser._to_bytes` : size unit multipliers, binary for
KiB/MiB/GiB, decimal for KB/MB/GB, after upper-casing the unit; the result
is `int(value * multiplier)`. -/
def toBytes (value : DecQ) (unit : List Char) : ℤ :=
  let u := upperList unit
  let mult : ℤ :=
    if u = "B".data then 1
    else if u = "KIB".data then 1024
    else if u = "KB".data then 1000
    else if u = "MIB".data then 1024 ^ 2
    else if u = "MB".data then 1000 ^ 2
    else if u = "GIB".data then 1024 ^ 3
    else if u = "GB".data then 1000 ^ 3
    else 1
  DecQ.truncInt ⟨value.num * mult, value.den⟩

/-- Python `f"{v:.1f}"` for the non-negative speeds the parser formats. -/
def fmt1 (q : DecQ) : List Char :=
  let n := (DecQ.roundHalfEven ⟨q.num * 10, q.den⟩).toNat
  Nat.toDigits 10 (n / 10) ++ '.' :: Nat.toDigits 10 (n % 10)

/-- The `[\d.]` class. -/
def isDigitDot (c : Char) : Bool := c.isDigit || c == '.'

/-- The `\w` class (ASCII). -/
def isWordChar (c : Char) : Bool := c.isAlphanum || c == '_'

/-- `\s+` : drop one or more whitespace characters. -/
def dropWs1 (l : List Char) : Option (List Char) :=
  let ws := l.takeWhile pyIsSpace
  if ws.isEmpty then none else some (l.drop ws.length)

/-- A non-empty greedy run of a character class, with the remainder. -/
def takeClass1 (p : Char → Bool) (l : List Char) : Option (List Char × List Char) :=
  let g := l.takeWhile p
  if g.isEmpty then none else some (g, l.drop g.length)

/-- `\d+\.?\d*` : digits, an optional dot, optional further digits. -/
def takeNumDotNum (l : List Char) : Option (List Char × List Char) := do
  let (d1, r) ← takeClass1 Char.isDigit l
  match r with
  | '.' :: r2 =>
    let d2 := r2.takeWhile Char.isDigit
    pure (d1 ++ '.' :: d2, r2.drop d2.length)
  | _ => pure (d1, r)

/-- `\d+:\d+`. -/
def takeTimePair (l : List Char) : Option (List Char × List Char) := do
  let (d1, r) ← takeClass1 Char.isDigit l
  match r with
  | ':' :: r2 =>
    let (d2, r3) ← takeClass1 Char.isDigit r2
    pure (d1 ++ ':' :: d2, r3)
  | _ => none

/-- `DESTINATION_PATTERN = \[download\]\s+Destination:\s+(.+)`. -/
def matchDestinationAt (l : List Char) : Option (List Char) := do
  let r ← dropLit "[download]".data l
  let r ← dropWs1 r
  let r ← dropLit "Destination:".data r
  let r ← dropWs1 r
  let g := r.takeWhile (fun c => c != '\n')
  if g.isEmpty then none else pure g

/-- Tail `([\d.]+)(\w+)/s\s+ETA\s+(\d+:\d+)` of the full progress pattern
(speed value, speed unit, eta). -/
def progressSpeedEta (r : List Char) :
    Option (List Char × List Char × List Char) := do
  let (g4, r) ← takeClass1 isDigitDot r
  let (g5, r) ← takeClass1 isWordChar r
  let r ← dropLit "/s".data r
  let r ← dropWs1 r
  let r ← dropLit "ETA".data r
  let r ← dropWs1 r
  let (g6, _) ← takeTimePair r
  pure (g4, g5, g6)

/-- Middle `~?([\d.]+)(\w+)\s+at\s+` of the full progress pattern (size value
and size unit) followed by the speed/eta tail. -/
def progressSizeTail (r : List Char) :
    Option (List Char × List Char × List Char × List Char × List Char) := do
  let r := match r with | '~' :: r2 => r2 | _ => r
  let (g2, r) ← takeClass1 isDigitDot r
  let (g3, r) ← takeClass1 isWordChar r
  let r ← dropWs1 r
  let r ← dropLit "at".data r
  let r ← dropWs1 r
  let (g4, g5, g6) ← progressSpeedEta r
  pure (g2, g3, g4, g5, g6)

/-- `PROGRESS_PATTERN =
\[download\]\s+(\d+\.?\d*)%\s+of\s+~?([\d.]+)(\w+)\s+at\s+([\d.]+)(\w+)/s\s+ETA\s+(\d+:\d+)`,
returning the six captured groups. -/
def matchProgressAt (l : List Char) :
    Option (List Char × List Char × List Char × List Char × List Char × List Char) := do
  let r ← dropLit "[download]".data l
  let r ← dropWs1 r
  let (g1, r) ← takeNumDotNum r
  let r ← dropLit "%".data r
  let r ← dropWs1 r
  let r ← dropLit "of".data r
  let r ← dropWs1 r
  let (g2, g3, g4, g5, g6) ← progressSizeTail r
  pure (g1, g2, g3, g4, g5, g6)

/-- Tail `(\d+)\s+of\s+(\d+)` of the fragment pattern. -/
def fragmentCounts (r : List Char) : Option (List Char × List Char) := do
  let (g1, r) ← takeClass1 Char.isDigit r
  let r ← dropWs1 r
  let r ← dropLit "of".data r
  let r ← dropWs1 r
  let (g2, _) ← takeClass1 Char.isDigit r
  pure (g1, g2)

/-- `FRAGMENT_PATTERN =
\[download\]\s+Downloading\s+(?:item|video|fragment)\s+(\d+)\s+of\s+(\d+)`. -/
def matchFragmentAt (l : List Char) : Option (List Char × List Char) := do
  let r ← dropLit "[download]".data l
  let r ← dropWs1 r
  let r ← dropLit "Downloading".data r
  let r ← dropWs1 r
  let r ←
    match dropLit "item".data r with
    | some r2 => some r2
    | none =>
      match dropLit "video".data r with
      | some r2 => some r2
      | none => dropLit "fragment".data r
  let r ← dropWs1 r
  fragmentCounts r

/-- `SIMPLE_PROGRESS_PATTERN = \[download\]\s+(\d+\.?\d*)%`. -/
def matchSimpleAt (l : List Char) : Option (List Char) := do
  let r ← dropLit "[download]".data l
  let r ← dropWs1 r
  let (g1, r) ← takeNumDotNum r
  let _ ← dropLit "%".data r
  pure g1

/-- `COMPLETE_PATTERN = \[download\]\s+100%\s+of`. -/
def matchCompleteAt (l : List Char) : Option Unit := do
  let r ← dropLit "[download]".data l
  let r ← dropWs1 r
  let r ← dropLit "100%".data r
  let r ← dropWs1 r
  let _ ← dropLit "of".data r
  pure ()

/-- `s.split('/')[-1]` : the part after the last slash. -/
def lastSlashComponent (l : List Char) : List Char :=
  ((l.reverse.takeWhile (fun c => c != '/')).reverse)

/-- The mutable fields of `ProgressParser`. -/
structure ProgressState where
  totalSize : ℤ
  downloaded : ℤ
  speed : List Char
  eta : List Char
  percent : DecQ
  destination : List Char
  status : List Char
  isComplete : Bool
  deriving DecidableEq, Repr

/-- `ProgressParser.__init__` field values. -/
def initProgressState : ProgressState :=
  { totalSize := 0, downloaded := 0, speed := [], eta := [], percent := ⟨0, 1⟩,
    destination := [], status := "Starting...".data, isComplete := false }

/-- `ProgressParser.parse_line` : strips the line and tries, in source order,
destination, full progress, fragment progress, bare percentage, completion
marker, and merge marker, each only when no earlier branch updated.  Returns
the new state and the `updated` flag. -/
def parseLine (st : ProgressState) (line : List Char) : ProgressState × Bool :=
  let line := stripChars line
  if line.isEmpty then (st, false)
  else
    match searchSuffixes matchDestinationAt line with
    | some dest =>
      ({ st with destination := dest,
                 status := "Downloading: ".data ++ lastSlashComponent dest }, true)
    | none =>
    match searchSuffixes matchProgressAt line with
    | some (g1, g2, g3, g4, g5, g6) =>
      let percent := (pyFloat g1).getD ⟨0, 1⟩
      let sizeVal := (pyFloat g2).getD ⟨0, 1⟩
      let speedVal := (pyFloat g4).getD ⟨0, 1⟩
      let totalSize := toBytes sizeVal g3
      ({ st with percent := percent,
                 eta := g6,
                 totalSize := totalSize,
                 downloaded := DecQ.truncInt ((DecQ.mul ⟨totalSize, 1⟩ percent).divNat 100),
                 speed := fmt1 speedVal ++ ' ' :: g5 ++ "/s".data,
                 status := "Downloading".data }, true)
    | none =>
    match searchSuffixes matchFragmentAt line with
    | some (g1, g2) =>
      let current := digitsToNat g1
      let total := digitsToNat g2
      ({ st with percent := DecQ.mul ⟨current, total⟩ ⟨100, 1⟩,
                 status := "Fragment ".data ++ Nat.toDigits 10 current
                   ++ '/' :: Nat.toDigits 10 total }, true)
    | none =>
    match searchSuffixes matchSimpleAt line with
    | some g1 =>
      ({ st with percent := (pyFloat g1).getD ⟨0, 1⟩, status := "Downloading".data }, true)
    | none =>
    if (searchSuffixes matchCompleteAt line).isSome then
      ({ st with percent := ⟨100, 1⟩, isComplete := true,
                 status := "Download complete".data }, true)
    else if containsSub "[Merger]".data line || containsSub "Merging formats".data line then
      ({ st with status := "Merging audio and video...".data }, true)
    else
      (st, false)

/-- The progress line of the claim. -/
def c5Line : List Char := "[download]  45.2% of 100.00MiB at 5.00MiB/s ETA 00:10".data

/-- C5: parsing the claimed line updates the parser, setting percent
45.2 (the fraction 452/10 = 226/5), total size 104857600 bytes, downloaded
bytes 47395635 = the integer part of 45.2% of 104857600 (certified by the
bracketing inequalities), speed string `5.0 MiB/s` and ETA `00:10`; and the
unit table converts binary units (KiB/MiB/GiB) with 1024^n and decimal units
(KB/MB/GB) with 1000^n multipliers. -/
theorem progress_line_parse :
    (parseLine initProgressState c5Line).2 = true ∧
    (parseLine initProgressState c5Line).1.percent = ⟨452, 10⟩ ∧
    DecQ.toRat ⟨452, 10⟩ = 226 / 5 ∧
    (parseLine initProgressState c5Line).1.totalSize = 104857600 ∧
    (parseLine initProgressState c5Line).1.downloaded = 47395635 ∧
    ((47395635 : ℚ) ≤ (226 / 5) * 104857600 / 100
      ∧ (226 / 5 : ℚ) * 104857600 / 100 < 47395635 + 1) ∧
    (parseLine initProgressState c5Line).1.speed = "5.0 MiB/s".data ∧
    (parseLine initProgressState c5Line).1.eta = "00:10".data ∧
    (∀ v : DecQ,
      toBytes v "KiB".data = DecQ.truncInt ⟨v.num * 1024, v.den⟩ ∧
      toBytes v "KB".data = DecQ.truncInt ⟨v.num * 1000, v.den⟩ ∧
      toBytes v "MiB".data = DecQ.truncInt ⟨v.num * 1024 ^ 2, v.den⟩ ∧
      toBytes v "MB".data = DecQ.truncInt ⟨v.num * 1000 ^ 2, v.den⟩ ∧
      toBytes v "GiB".data = DecQ.truncInt ⟨v.num * 1024 ^ 3, v.den⟩ ∧
      toBytes v "GB".data = DecQ.truncInt ⟨v.num * 1000 ^ 3, v.den⟩) := by
  refine ⟨by decide, by decide, ?_, by decide, by decide, ⟨by norm_num, by norm_num⟩,
    by decide, by decide, ?_⟩
  · unfold DecQ.toRat
    norm_num
  · intro v
    exact ⟨rfl, rfl, rfl, rfl, rfl, rfl⟩

/-! ## GUI queue data model (`src/gui/models/queue_item.py`)

`QueueStatus` is embedded together with its member-name table so that
Python attribute lookup (`QueueStatus.NAME`) can be modelled: looking up a
name with no member raises `AttributeError`. -/

/-- The members the `QueueStatus` enum actually defines. -/
inductive QueueStatusE where
  | pending | analyzing | downloading | completed | error | cancelled | paused
  deriving DecidableEq, Repr

/-- The member names of `QueueStatus`, in declaration order. -/
def queueStatusMemberNames : List String :=
  ["PENDING", "ANALYZING", "DOWNLOADING", "COMPLETED", "ERROR", "CANCELLED", "PAUSED"]

/-- Python exception kinds raised by the embedded GUI code. -/
inductive PyErr where
  | attributeError | typeError | valueError
  deriving DecidableEq, Repr

/-- Attribute lookup `QueueStatus.<name>`. -/
def queueStatusAttr : String → Option QueueStatusE
  | "PENDING" => some .pending
  | "ANALYZING" => some .analyzing
  | "DOWNLOADING" => some .downloading
  | "COMPLETED" => some .completed
  | "ERROR" => some .error
  | "CANCELLED" => some .cancelled
  | "PAUSED" => some .paused
  | _ => none

/-- The fields the `QueueItem` dataclass declares — its generated `__init__`
accepts exactly these keywords, and its instances expose exactly these
attributes (nothing in the code assigns further ones). -/
def queueItemFieldNames : List String :=
  ["url", "id", "status", "title", "platform", "progress", "speed", "eta",
   "error_message", "is_video_only", "output_path"]

/-- Whether a keyword-argument list is accepted by the dataclass
`__init__`; an unknown keyword raises `TypeError`. -/
def dataclassInitAccepts (kwargs : List String) : Bool :=
  kwargs.all (fun k => queueItemFieldNames.contains k)

/-- Attribute lookup on a `QueueItem` instance: only the declared fields
exist; any other name raises `AttributeError`. -/
def queueItemAttr (name : String) : Option Unit :=
  if queueItemFieldNames.contains name then some () else none

/-- Attribute lookup as a fallible computation: a missing member raises
`AttributeError`. -/
def attrE (name : String) : Except PyErr QueueStatusE :=
  match queueStatusAttr name with
  | some s => .ok s
  | none => .error .attributeError

/-- Bind on a raised exception propagates the exception. -/
theorem except_bind_error {ε α β : Type} (e : ε) (f : α → Except ε β) :
    (Except.error e >>= f : Except ε β) = Except.error e := rfl

/-- Bind on a successful result applies the continuation. -/
theorem except_bind_ok {ε α β : Type} (a : α) (f : α → Except ε β) :
    (Except.ok a >>= f : Except ε β) = f a := rfl

/-! ## GUI download worker (`DownloadWorker._run` / `_run_download`,
`src/gui/managers/download_worker.py`)

The worker's observable behaviour is the sequence of events it pushes.  Its
catch-all `except` converts any exception — in particular the
`AttributeError` from evaluating `QueueStatus.READY` — into a
`DOWNLOAD_ERROR` event. -/

/-- Events a worker pushes to the event processor. -/
inductive WEvent where
  | statusChange (s : QueueStatusE)
  | analysisComplete
  | downloadComplete
  | downloadError (msg : String)
  deriving DecidableEq, Repr

/-- `DownloadWorker._run` (without cancellation, which needs no event): the
event trace as a function of whether `analyze()` succeeds, whether the worker
is analyze-only, and whether the download subprocess exits zero.  Two
attribute references fail and are modelled explicitly: the analyze-only path
evaluates `QueueStatus.READY` (no such member), and the download phase
evaluates `self.item.custom_filename` while building the command
(`download_worker.py` line 181, before the subprocess `try`) — in both cases
`_run`'s catch-all converts the `AttributeError` into an error event. -/
def workerRunPy (analyzeOk analyzeOnly dlOk : Bool) : List WEvent :=
  let e1 : List WEvent := [.statusChange .analyzing]
  if !analyzeOk then
    e1 ++ [.downloadError "Failed to analyze video URL"]
  else
    let e2 := e1 ++ [.analysisComplete]
    if analyzeOnly then
      match queueStatusAttr "READY" with
      | some st => e2 ++ [.statusChange st]
      | none => e2 ++ [.downloadError "AttributeError: READY"]
    else
      let e3 := e2 ++ [.statusChange .downloading]
      match queueItemAttr "custom_filename" with
      | some _ =>
        e3 ++ (if dlOk then [.downloadComplete]
               else [.downloadError "Download failed (yt-dlp returned non-zero exit code)"])
      | none => e3 ++ [.downloadError "AttributeError: custom_filename"]

/-! ## Queue manager `start` / `get_stats`
(`QueueManager`, `src/gui/managers/queue_manager.py`) -/

/-- `self._max_concurrent = 1`. -/
def maxConcurrent : Nat := 1

/-- The CANCELLED-to-READY reset loop at the top of `QueueManager.start()`:
resetting evaluates `QueueStatus.READY`. -/
def resetCancelled : List QueueStatusE → Except PyErr (List QueueStatusE)
  | [] => .ok []
  | st :: rest =>
    if st == .cancelled then do
      let r ← attrE "READY"
      let tail ← resetCancelled rest
      pure (r :: tail)
    else do
      let tail ← resetCancelled rest
      pure (st :: tail)

/-- The READY-scan loop of `_start_next_downloads`: each iteration compares
the item status with `QueueStatus.READY` (an attribute lookup) and promotes
on equality while slots remain. -/
def scanReadyLoop : Nat → List QueueStatusE → Except PyErr (List QueueStatusE)
  | _, [] => .ok []
  | slots, st :: rest =>
    if slots == 0 then .ok (st :: rest)
    else do
      let r ← attrE "READY"
      if st == r then do
        let tail ← scanReadyLoop (slots - 1) rest
        pure (.downloading :: tail)
      else do
        let tail ← scanReadyLoop slots rest
        pure (st :: tail)

/-- `QueueManager._start_next_downloads` over the item statuses in queue
order: count active downloads, return early when no slot is free, else scan
for READY items. -/
def startNextDownloadsPy (items : List QueueStatusE) : Except PyErr (List QueueStatusE) :=
  let active := items.count .downloading
  if maxConcurrent - active == 0 then .ok items
  else scanReadyLoop (maxConcurrent - active) items

/-- `QueueManager.start()` : reset CANCELLED items, then start next
downloads. -/
def startPy (items : List QueueStatusE) : Except PyErr (List QueueStatusE) := do
  let items2 ← resetCancelled items
  startNextDownloadsPy items2

/-- The record `get_stats` builds. -/
structure QueueStats where
  total : Nat
  pending : Nat
  analyzing : Nat
  ready : Nat
  downloading : Nat
  completed : Nat
  errored : Nat
  deriving DecidableEq, Repr

/-- `QueueManager.get_stats()` : the dict values in evaluation order; the
`"ready"` entry evaluates `QueueStatus.READY`. -/
def getStatsModel (sts : List QueueStatusE) : Except PyErr QueueStats := do
  let p ← attrE "PENDING"
  let a ← attrE "ANALYZING"
  let r ← attrE "READY"
  let d ← attrE "DOWNLOADING"
  let c ← attrE "COMPLETED"
  let e ← attrE "ERROR"
  pure ⟨sts.length, sts.count p, sts.count a, sts.count r, sts.count d, sts.count c, sts.count e⟩

/-- `resetCancelled` either raises the READY `AttributeError` or leaves the
list unchanged. -/
theorem resetCancelled_cases (items : List QueueStatusE) :
    resetCancelled items = .error .attributeError ∨ resetCancelled items = .ok items := by
  induction items with
  | nil => exact Or.inr rfl
  | cons st rest ih =>
    by_cases hc : (st == QueueStatusE.cancelled) = true
    · left
      show (if (st == QueueStatusE.cancelled) = true then _ else _) = _
      rw [if_pos hc]
      rfl
    · have hexp : resetCancelled (st :: rest)
          = (resetCancelled rest >>= fun tail => pure (st :: tail)) := by
        show (if (st == QueueStatusE.cancelled) = true then _ else _) = _
        rw [if_neg hc]
      rcases ih with h | h
      · left
        rw [hexp, h, except_bind_error]
      · right
        rw [hexp, h, except_bind_ok]
        rfl

/-- C9, counterexample.  `QueueManager.start()` on an empty queue runs to
completion without raising: both loops that would evaluate
`QueueStatus.READY` have no iterations — the claim that `start()` raises
`AttributeError` whenever evaluated is too broad. -/
theorem start_empty_queue_no_error :
    startPy ([] : List QueueStatusE) = .ok [] := rfl

/-- C9, amended.  The status enum defines no READY member, so: the attribute
lookup fails; `get_stats()` raises `AttributeError` on every queue;
`start()` raises `AttributeError` on every non-empty queue with no active
download (it returns normally only when the READY references are never
reached, e.g. on an empty queue); and an analyze-only worker run that
completes analysis pushes a DOWNLOAD_ERROR event instead of a READY status —
its only status event is ANALYZING, so no item ever attains a ready
status. -/
theorem queue_ready_member_missing :
    ("READY" ∉ queueStatusMemberNames ∧ queueStatusAttr "READY" = none) ∧
    (∀ sts : List QueueStatusE, getStatsModel sts = .error .attributeError) ∧
    (∀ items : List QueueStatusE, items ≠ [] → items.count .downloading = 0 →
      startPy items = .error .attributeError) ∧
    (∀ dlOk : Bool,
      workerRunPy true true dlOk
        = [.statusChange .analyzing, .analysisComplete, .downloadError "AttributeError: READY"] ∧
      ∀ s : QueueStatusE, WEvent.statusChange s ∈ workerRunPy true true dlOk → s = .analyzing) := by
  refine ⟨⟨by decide, rfl⟩, fun sts => rfl, ?_, fun dlOk => ⟨rfl, ?_⟩⟩
  · intro items hne hcount
    have hstart : startPy items = (resetCancelled items >>= startNextDownloadsPy) := rfl
    rcases resetCancelled_cases items with h | h
    · rw [hstart, h, except_bind_error]
    · rw [hstart, h, except_bind_ok]
      cases items with
      | nil => exact absurd rfl hne
      | cons st rest =>
        have hnext : startNextDownloadsPy (st :: rest) = scanReadyLoop 1 (st :: rest) := by
          unfold startNextDownloadsPy
          rw [hcount]
          rfl
        rw [hnext]
        rfl
  · intro s hs
    have hr : queueStatusAttr "READY" = none := rfl
    simp [workerRunPy, hr] at hs
    exact hs

/-- C9 witness: the amended theorem at a one-item queue and a successful
analyze-only run. -/
theorem queue_ready_member_missing_witness :
    getStatsModel [QueueStatusE.pending] = .error .attributeError ∧
    startPy [QueueStatusE.pending] = .error .attributeError ∧
    workerRunPy true true true
      = [.statusChange .analyzing, .analysisComplete, .downloadError "AttributeError: READY"] :=
  ⟨queue_ready_member_missing.2.1 [QueueStatusE.pending],
   queue_ready_member_missing.2.2.1 [QueueStatusE.pending] (by decide) (by decide),
   (queue_ready_member_missing.2.2.2 true).1⟩

/-! ## Analysis gate and lifecycle (`VimeoDownloader.analyze` tail,
`src/core/downloader.py` lines 246-272, with `download_single` and the GUI
worker) -/

/-- The access type used for planning: sources that self-handle auth skip
probing and are treated as PUBLIC. -/
def analyzeVideoType (source : VideoSource) (detected : VimeoType) : VimeoType :=
  if source == .youtube || source == .kinescope || source == .getcourse
      || source == .directStream then
    .public
  else
    detected

/-- What the analysis phase leaves behind: the constructed command builder
(if reached) and the success flag. -/
structure AnalyzeOutcome where
  commandBuilder : Option CommandBuilder
  ok : Bool
  deriving DecidableEq, Repr

/-- The tail of `VimeoDownloader.analyze` after a successful parse: the
command builder is constructed first (line 255), and only then is a
password-protected video without a password refused (lines 262-264). -/
def analyzeFinish (videoId : String) (videoHash : Option String) (source : VideoSource)
    (detected : VimeoType) (password cookieString : Option String)
    (originalUrl : String) : AnalyzeOutcome :=
  let videoType := analyzeVideoType source detected
  let builder : CommandBuilder :=
    ⟨videoId, videoHash, videoType, password, cookieString, some originalUrl, source⟩
  if videoType == .passwordProtected && !(optStrTruthy password) then
    ⟨some builder, false⟩
  else
    ⟨some builder, true⟩

/-- Whether the single-URL CLI path spawns a download subprocess: only after
a successful analysis, and not for list-formats or dry-run invocations. -/
def cliSpawnsDownloadProcess (analyzeOk listFormatsFlag dryRun : Bool) : Bool :=
  analyzeOk && !listFormatsFlag && !dryRun

/-- C8, counterexample.  For a password-protected video with no password the
analysis does refuse (`ok = false`), but the download plan (the
`CommandBuilder`) has already been constructed when it refuses — contrary to
the claim that analysis refuses *before* a download is planned. -/
theorem plan_built_before_password_refusal :
    (analyzeFinish "123456789" none .vimeo .passwordProtected none none
        "https://vimeo.com/123456789").ok = false ∧
    (analyzeFinish "123456789" none .vimeo .passwordProtected none none
        "https://vimeo.com/123456789").commandBuilder ≠ none := by
  decide

/-- C8, amended.  For every Job classified PasswordProtected with no
password supplied, analysis fails before any download is *started*: the CLI
path spawns no download subprocess, and the GUI worker never pushes a
DOWNLOADING status event (the command plan is, however, constructed during
analysis, before the refusal). -/
theorem password_blocked_never_downloading (videoId : String) (videoHash : Option String)
    (source : VideoSource) (detected : VimeoType) (password cookieString : Option String)
    (originalUrl : String) (analyzeOnly dlOk listFormatsFlag dryRun : Bool)
    (hp : optStrTruthy password = false)
    (ht : analyzeVideoType source detected = .passwordProtected) :
    (analyzeFinish videoId videoHash source detected password cookieString originalUrl).ok
      = false ∧
    cliSpawnsDownloadProcess
      (analyzeFinish videoId videoHash source detected password cookieString originalUrl).ok
      listFormatsFlag dryRun = false ∧
    WEvent.statusChange .downloading ∉
      workerRunPy
        (analyzeFinish videoId videoHash source detected password cookieString originalUrl).ok
        analyzeOnly dlOk := by
  have hok :
      (analyzeFinish videoId videoHash source detected password cookieString originalUrl).ok
        = false := by
    simp [analyzeFinish, ht, hp]
  refine ⟨hok, ?_, ?_⟩
  · simp [cliSpawnsDownloadProcess, hok]
  · rw [hok]
    simp [workerRunPy]

/-- C8 witness: a password-protected Vimeo video analyzed with no password in
the GUI worker configuration. -/
theorem password_blocked_never_downloading_witness :
    (analyzeFinish "123456789" none .vimeo .passwordProtected none none
        "https://vimeo.com/123456789").ok = false ∧
    cliSpawnsDownloadProcess
      (analyzeFinish "123456789" none .vimeo .passwordProtected none none
          "https://vimeo.com/123456789").ok false false = false ∧
    WEvent.statusChange .downloading ∉
      workerRunPy
        (analyzeFinish "123456789" none .vimeo .passwordProtected none none
            "https://vimeo.com/123456789").ok true true :=
  password_blocked_never_downloading "123456789" none .vimeo .passwordProtected none none
    "https://vimeo.com/123456789" true true false false (by decide) (by decide)

/-! ## `QueueManager.add_url` and the `QueueItem` constructor
(`src/gui/managers/queue_manager.py` lines 44-86,
`src/gui/models/queue_item.py` lines 22-36) -/

/-- The extensions `add_url` strips from a supplied filename. -/
def videoExtsList : List (List Char) :=
  [".mp4".data, ".mkv".data, ".webm".data, ".avi".data, ".mov".data]

/-- The filename clean-up in `add_url` (strip, drop known extensions, empty
becomes `None`). -/
def cleanFilename : Option (List Char) → Option (List Char)
  | none => none
  | some f =>
    if f.isEmpty then some f
    else
      let f := stripChars f
      let f := videoExtsList.foldl
        (fun acc ext =>
          if endsWithList ext (lowerList acc) then acc.take (acc.length - ext.length)
          else acc) f
      if f.isEmpty then none else some f

/-- `QueueManager.add_url` : strip the URL, reject empty with `ValueError`,
clean the filename, then construct `QueueItem(url=..., custom_filename=...)`
— a keyword set the dataclass does not accept. -/
def addUrlPy (url : List Char) (filename : Option (List Char)) :
    Except PyErr (List Char × Option (List Char)) :=
  let url := stripChars url
  if url.isEmpty then .error .valueError
  else
    let f := cleanFilename filename
    if dataclassInitAccepts ["url", "custom_filename"] then .ok (url, f)
    else .error .typeError

/-- `QueueManager.add_urls` : strip each line, skip blanks and `#` comments,
and call `add_url` on the rest; an exception aborts the loop. -/
def addUrlsPy : List (List Char) → Except PyErr (List (List Char × Option (List Char)))
  | [] => .ok []
  | u :: rest =>
    let u2 := stripChars u
    if !u2.isEmpty && !(listStartsWith "#".data u2) then do
      let item ← addUrlPy u2 none
      let tail ← addUrlsPy rest
      pure (item :: tail)
    else addUrlsPy rest

/-- `add_url` never returns successfully. -/
theorem addUrlPy_never_ok (url : List Char) (filename : Option (List Char))
    (item : List Char × Option (List Char)) : addUrlPy url filename ≠ .ok item := by
  have hacc : dataclassInitAccepts ["url", "custom_filename"] = false := by decide
  intro h
  simp only [addUrlPy, hacc] at h
  split at h
  · exact absurd h (by simp)
  · simp at h

/-- C10, counterexample.  `add_url` with an empty (or all-whitespace) URL
raises `ValueError`, not `TypeError` — the "for every URL" quantification is
too broad. -/
theorem add_url_empty_valueerror :
    addUrlPy "".data none = .error .valueError ∧ PyErr.valueError ≠ PyErr.typeError := by
  exact ⟨rfl, by decide⟩

/-- C10, amended.  For every URL that is non-empty after stripping (and
every filename argument), `add_url` raises `TypeError` from the
`QueueItem(url=..., custom_filename=...)` construction, the dataclass not
declaring `custom_filename`; a blank URL raises `ValueError` first.
Consequently `add_urls` (and hence the GUI's batch loading, which goes
through it) never creates a queue item: every successful return is the empty
list. -/
theorem add_url_always_typeerror (url : List Char) (filename : Option (List Char))
    (hu : (stripChars url).isEmpty = false) :
    addUrlPy url filename = .error .typeError ∧
    (∀ (urls : List (List Char)) (l : List (List Char × Option (List Char))),
      addUrlsPy urls = .ok l → l = []) := by
  constructor
  · have hacc : dataclassInitAccepts ["url", "custom_filename"] = false := by decide
    simp [addUrlPy, hu, hacc]
  · intro urls
    induction urls with
    | nil =>
      intro l h
      simp [addUrlsPy] at h
      exact h
    | cons u rest ih =>
      intro l h
      simp only [addUrlsPy] at h
      split at h
      · rcases he : addUrlPy (stripChars u) none with e | item
        · rw [he, except_bind_error] at h
          exact absurd h (by simp)
        · exact absurd he (addUrlPy_never_ok _ _ _)
      · exact ih l h

/-- C10 witness: the amended theorem at a concrete URL, with the non-blank
hypothesis discharged. -/
theorem add_url_always_typeerror_witness :
    addUrlPy "https://vimeo.com/123456789".data (some "clip.mp4".data)
      = .error .typeError :=
  (add_url_always_typeerror "https://vimeo.com/123456789".data (some "clip.mp4".data)
    (by decide)).1

/-! ## Scheduler reachability (`QueueManager`,
`src/gui/managers/queue_manager.py`)

What the queue pipeline actually executes.  `add_url` is the manager's only
insertion point into `_items`/`_order` (lines 59-61), and it raises before
reaching the insertion (see the `addUrlPy` theorems above), so a submission
never adds an item.  On the promotion side, `_start_next_downloads` is the
only caller of `_start_download`: whenever a slot is free and the queue is
non-empty its READY scan raises `AttributeError` at the first item, and in
every non-raising run it returns with the statuses untouched — no item's
status is ever set to DOWNLOADING. -/

/-- A submission (`add_url` called on a queue with the given item statuses):
on success the constructed item would be appended with its default PENDING
status; when the call raises, nothing is inserted. -/
def gmSubmit (items : List QueueStatusE) (url : List Char)
    (filename : Option (List Char)) : List QueueStatusE :=
  match addUrlPy url filename with
  | .ok _ => items ++ [.pending]
  | .error _ => items

/-- A sequence of submissions (each a separate GUI action; an exception in
one does not stop later ones). -/
def gmSubmitAll (items : List QueueStatusE) :
    List (List Char × Option (List Char)) → List QueueStatusE
  | [] => items
  | (u, f) :: rest => gmSubmitAll (gmSubmit items u f) rest

/-- A submission never changes the queue: `add_url` always raises before the
insertion. -/
theorem gmSubmit_eq (items : List QueueStatusE) (url : List Char)
    (filename : Option (List Char)) : gmSubmit items url filename = items := by
  unfold gmSubmit
  rcases h : addUrlPy url filename with e | it
  · rfl
  · exact absurd h (addUrlPy_never_ok url filename it)

/-- The READY scan leaves the statuses untouched in every non-raising run. -/
theorem scanReadyLoop_ok_eq (slots : Nat) (items l : List QueueStatusE)
    (hs : (slots == 0) = false) (h : scanReadyLoop slots items = .ok l) : l = items := by
  cases items with
  | nil =>
    simp only [scanReadyLoop] at h
    injection h with h
    exact h.symm
  | cons st rest =>
    rw [show scanReadyLoop slots (st :: rest)
        = (if (slots == 0) = true then Except.ok (st :: rest)
           else (attrE "READY" >>= fun r =>
             if (st == r) = true then
               (scanReadyLoop (slots - 1) rest >>= fun tail => pure (.downloading :: tail))
             else
               (scanReadyLoop slots rest >>= fun tail => pure (st :: tail)))) from rfl] at h
    rw [if_neg (by simp [hs])] at h
    rw [show attrE "READY" = Except.error PyErr.attributeError from rfl,
      except_bind_error] at h
    exact absurd h (by simp)

/-- C1: the scheduling the claim describes is unreachable in the code.  For
every sequence of submitted URLs the queue stays empty — `add_url` raises
`TypeError` (or `ValueError` on a blank URL) before inserting, so no Job is
ever created and the number of DOWNLOADING items is 0 at every instant — and
the promotion scan `_start_next_downloads` never changes a status: every run
that does not raise `AttributeError` returns the statuses exactly as they
were, so no item is ever promoted to DOWNLOADING.  Jobs are therefore never
downloaded at all, let alone one at a time in FIFO order. -/
theorem scheduler_never_reaches_downloading :
    (∀ subs : List (List Char × Option (List Char)),
      gmSubmitAll [] subs = [] ∧
      (gmSubmitAll [] subs).count QueueStatusE.downloading = 0) ∧
    (∀ items l : List QueueStatusE,
      startNextDownloadsPy items = .ok l → l = items) := by
  constructor
  · have hall : ∀ (subs : List (List Char × Option (List Char)))
        (items : List QueueStatusE), gmSubmitAll items subs = items := by
      intro subs
      induction subs with
      | nil => intro items; rfl
      | cons p rest ih =>
        intro items
        rcases p with ⟨u, f⟩
        show gmSubmitAll (gmSubmit items u f) rest = items
        rw [gmSubmit_eq, ih]
    intro subs
    rw [hall subs []]
    exact ⟨rfl, rfl⟩
  · intro items l h
    have h2 : (if (maxConcurrent - items.count .downloading == 0) = true
        then Except.ok items
        else scanReadyLoop (maxConcurrent - items.count .downloading) items)
        = Except.ok l := h
    split at h2
    · injection h2 with h2
      exact h2.symm
    · next hs =>
      exact scanReadyLoop_ok_eq _ items l (by simpa using hs) h2

/-- C1 witness: the theorem applied to a concrete submission and to a queue
state on which the scan returns without raising, its hypothesis discharged by
evaluation. -/
theorem scheduler_never_reaches_downloading_witness :
    gmSubmitAll [] [("https://vimeo.com/123456789".data, some "clip.mp4".data)] = [] ∧
    ([QueueStatusE.downloading] : List QueueStatusE) = [QueueStatusE.downloading] :=
  ⟨(scheduler_never_reaches_downloading.1
      [("https://vimeo.com/123456789".data, some "clip.mp4".data)]).1,
   scheduler_never_reaches_downloading.2 [QueueStatusE.downloading]
     [QueueStatusE.downloading] rfl⟩

end VideoDL
